import Mathlib

/-!
Verification of the core pipeline of `src/python codes/new_gesture_control.py`
(the single-file Tkinter application class `GestureController`).

The Python code is shallowly embedded: every stateful method becomes a pure
function from its pre-state (together with the externally determined outcomes
of network and library calls) to its post-state and observable result.
Wall-clock times (`time.time()`) and landmark coordinates (floats) are
modelled as rationals; the only use of `np.sqrt` in the source is inside the
comparison `sqrt d < c` with both sides nonnegative, which is embedded as
`d < c ^ 2`. A Python function that can raise is embedded with an `Option`
(or `Except`) result, `none`/`error` standing for the raised exception.
-/

namespace GestureControl

/-- Lines 37-45: `DEFAULT_GESTURE_ACTIONS`, the compiled-in default
gesture-to-action mapping, as an insertion-ordered association list
(a Python dict). -/
def DEFAULT_GESTURE_ACTIONS : List (String × String) :=
  [("thumbs_up", "translate"), ("peace", "repeat"), ("fist", "stop"),
   ("open_palm", "cycle_language"), ("pointing", "send_msg"),
   ("ok_sign", "none"), ("pinch", "none")]

/-- Lines 46-50: `AVAILABLE_ACTIONS`, the fixed action set offered by the
gesture-mapping UI. -/
def AVAILABLE_ACTIONS : List String :=
  ["translate", "repeat", "stop", "cycle_language", "send_msg",
   "show_text_on_esp32", "speak_custom_text", "change_source_language",
   "reset_app", "none"]

/-- Python dict assignment `d[k] = v` on an insertion-ordered association
list: replace the value at an existing key in place, else append the new
pair at the end. -/
def dictSet : List (String × String) → String → String → List (String × String)
  | [], k, v => [(k, v)]
  | (k1, v1) :: rest, k, v =>
      if k1 = k then (k, v) :: rest else (k1, v1) :: dictSet rest k v

/-- Lines 1048-1051, `update_gesture_mapping(gesture, action)`: stores
`gesture → action` into `self.gesture_actions` unconditionally (there is no
validation of either argument), then saves the config file and logs (both
external side effects, not modelled). -/
def update_gesture_mapping (m : List (String × String))
    (gesture action : String) : List (String × String) :=
  dictSet m gesture action

/-- Lines 171-173 inside `load_gesture_config`: for every key of
`DEFAULT_GESTURE_ACTIONS` missing from the parsed config dict, add the
default value (Python dicts append new keys in iteration order).  Keys
already present in `cfg` — known or unknown — are left untouched. -/
def mergeDefaults (cfg : List (String × String)) : List (String × String) :=
  cfg ++ DEFAULT_GESTURE_ACTIONS.filter (fun kv => (List.lookup kv.1 cfg).isNone)

/-- Observable states of the external `gesture_config.json` file as seen by
`load_gesture_config`: missing, present but unreadable (`open` raises),
present but holding malformed JSON (`json.load` raises), or present and
parsed into a key/value mapping. -/
inductive ConfigFile
  | absent
  | unreadable
  | malformed
  | parsed (cfg : List (String × String))

/-- Line 167: the `os.path.exists(GESTURE_CONFIG_FILE)` test. -/
def fileExists : ConfigFile → Bool
  | .absent => false
  | _ => true

/-- Lines 169-170: outcome of `open` followed by `json.load` on the config
file; an `error` is a raised exception. -/
def readConfig : ConfigFile → Except String (List (String × String))
  | .absent => .error "file not found"
  | .unreadable => .error "cannot open file"
  | .malformed => .error "json decode error"
  | .parsed cfg => .ok cfg

/-- Lines 166-177, `load_gesture_config()`: if the file exists, try to read
and parse it and fill in missing defaults; any exception is caught (printed)
and the function falls through to returning a fresh copy of
`DEFAULT_GESTURE_ACTIONS`.  The `.copy()` of the source is value semantics
here: the returned list never aliases the constant. -/
def load_gesture_config (f : ConfigFile) : List (String × String) :=
  if fileExists f then
    match readConfig f with
    | .ok cfg => mergeDefaults cfg
    | .error _ => DEFAULT_GESTURE_ACTIONS
  else DEFAULT_GESTURE_ACTIONS

/-- A MediaPipe hand landmark; `detect_gesture` reads only the `x` and `y`
coordinates.  Floats are modelled as rationals. -/
structure Landmark where
  x : ℚ
  y : ℚ

/-- The boolean finger flags and the squared thumb-index distance computed
by `detect_gesture` (lines 678-683 and 694) from a pose. -/
structure HandFlags where
  thumb_up : Bool
  index_up : Bool
  middle_up : Bool
  ring_up : Bool
  pinky_up : Bool
  thumb_index_dist2 : ℚ

/-- Line 683: `fingers_up = sum([index_up, middle_up, ring_up, pinky_up])`. -/
def fingers_up (f : HandFlags) : Nat :=
  (if f.index_up then 1 else 0) + (if f.middle_up then 1 else 0) +
    (if f.ring_up then 1 else 0) + (if f.pinky_up then 1 else 0)

/-- Line 684: the condition of the `"thumbs_up"` branch. -/
def thumbsUpCond (f : HandFlags) : Bool :=
  f.thumb_up && !f.index_up && !f.middle_up && !f.ring_up && !f.pinky_up

/-- Line 686: the condition of the `"peace"` branch. -/
def peaceCond (f : HandFlags) : Bool :=
  f.index_up && f.middle_up && !f.ring_up && !f.pinky_up

/-- Line 688: the condition of the `"fist"` branch. -/
def fistCond (f : HandFlags) : Bool :=
  (fingers_up f == 0) && !f.thumb_up

/-- Line 690: the condition of the `"open_palm"` branch. -/
def openPalmCond (f : HandFlags) : Bool :=
  (fingers_up f == 4) && f.thumb_up

/-- Line 692: the condition of the `"pointing"` branch. -/
def pointingCond (f : HandFlags) : Bool :=
  f.index_up && !f.middle_up && !f.ring_up && !f.pinky_up

/-- Line 695: the condition of the `"ok_sign"` branch
(`thumb_index_dist < 0.05 and middle_up and ring_up`, with the distance
comparison squared). -/
def okSignCond (f : HandFlags) : Bool :=
  decide (f.thumb_index_dist2 < (5 / 100 : ℚ) ^ 2) && f.middle_up && f.ring_up

/-- Line 697: the condition of the `"pinch"` branch
(`thumb_index_dist < 0.08 and not middle_up and not ring_up`). -/
def pinchCond (f : HandFlags) : Bool :=
  decide (f.thumb_index_dist2 < (8 / 100 : ℚ) ^ 2) && !f.middle_up && !f.ring_up

/-- Lines 684-699: the branch chain of `detect_gesture`, returning the first
matching label in source order, `"None"` if nothing matches.  (The source
computes `thumb_index_dist` only after the first five branches fall through;
evaluating the pure arithmetic eagerly is unobservable.) -/
def classifyCore (f : HandFlags) : String :=
  if thumbsUpCond f then "thumbs_up"
  else if peaceCond f then "peace"
  else if fistCond f then "fist"
  else if openPalmCond f then "open_palm"
  else if pointingCond f then "pointing"
  else if okSignCond f then "ok_sign"
  else if pinchCond f then "pinch"
  else "None"

/-- Lines 676-683 and 694: the unconditional landmark indexing of
`detect_gesture` (`landmarks[4]`, `[8]`, `[12]`, `[16]`, `[20]`, `[5]`,
`[9]`, `[13]`, `[17]`, `[3]`) and the derived flags.  A `none` result is the
`IndexError` raised when the pose has too few landmarks. -/
def poseFlags (lm : List Landmark) : Option HandFlags :=
  match lm[4]?, lm[8]?, lm[12]?, lm[16]?, lm[20]?,
      lm[5]?, lm[9]?, lm[13]?, lm[17]?, lm[3]? with
  | some thumb_tip, some index_tip, some middle_tip, some ring_tip,
    some pinky_tip, some index_base, some middle_base, some ring_base,
    some pinky_base, some thumb_ip =>
      some
        { thumb_up := decide (thumb_tip.y < thumb_ip.y)
          index_up := decide (index_tip.y < index_base.y)
          middle_up := decide (middle_tip.y < middle_base.y)
          ring_up := decide (ring_tip.y < ring_base.y)
          pinky_up := decide (pinky_tip.y < pinky_base.y)
          thumb_index_dist2 :=
            (thumb_tip.x - index_tip.x) ^ 2 + (thumb_tip.y - index_tip.y) ^ 2 }
  | _, _, _, _, _, _, _, _, _, _ => none

/-- Lines 675-699, `detect_gesture(landmarks)`: extract the flags (raising —
`none` — if an index is out of range) and run the branch chain. -/
def detect_gesture (lm : List Landmark) : Option String :=
  (poseFlags lm).map classifyCore

/-- Number of branch conditions of `detect_gesture` that a pose satisfies
simultaneously (used to state the ambiguity claim). -/
def countMatches (f : HandFlags) : Nat :=
  [thumbsUpCond f, peaceCond f, fistCond f, openPalmCond f, pointingCond f,
    okSignCond f, pinchCond f].count true

/-- Count of satisfied branch conditions of a pose (0 for a pose that makes
`detect_gesture` raise). -/
def countMatchesPose (lm : List Landmark) : Nat :=
  match poseFlags lm with
  | some f => countMatches f
  | none => 0

/-- The origin landmark used by the concrete test poses. -/
def lm0 : Landmark := { x := 0, y := 0 }

/-- A concrete 21-landmark pose: every landmark at the origin except
landmark 3 (the thumb joint that the thumb tip is compared against),
placed above the tip so that `thumb_up` holds; all four fingers are down
and the thumb-index distance is 0, so the pinch proximity condition holds
as well.  The pose therefore satisfies the decision conditions of both
`thumbs_up` and `pinch`. -/
def poseThumbPinch : List Landmark :=
  [lm0, lm0, lm0, { x := 0, y := 1 }, lm0, lm0, lm0, lm0, lm0, lm0, lm0,
   lm0, lm0, lm0, lm0, lm0, lm0, lm0, lm0, lm0, lm0]

/-- The flags `detect_gesture` derives from `poseThumbPinch`. -/
def flagsP : HandFlags :=
  { thumb_up := true, index_up := false, middle_up := false,
    ring_up := false, pinky_up := false, thumb_index_dist2 := 0 }

/-- Lines 108-110: the dispatcher state mutated by the cooldown check —
`last_gesture_time` (initially `0`) and `current_gesture`. -/
structure GestureState where
  last_gesture_time : ℚ
  current_gesture : String
deriving DecidableEq

/-- Lines 653-657 of `process_esp32_stream`: the cooldown-gated dispatch
decision for one classified frame.  Returns the new state and whether an
action was dispatched (line 657 spawns the action thread).  The comparison
is strict: `(now - self.last_gesture_time) > self.gesture_cooldown`. -/
def gestureStep (cooldown : ℚ) (st : GestureState) (gesture : String)
    (now : ℚ) : GestureState × Bool :=
  if gesture ≠ "None" ∧ now - st.last_gesture_time > cooldown then
    ({ last_gesture_time := now, current_gesture := gesture }, true)
  else (st, false)

/-- First index at which the two-byte sequence `a, b` occurs in a byte
string — the embedding of Python `bytes.find` on a two-byte needle, with
`none` for `-1`. -/
def listFind2 : List Nat → Nat → Nat → Option Nat
  | x :: y :: rest, a, b =>
      if x = a ∧ y = b then some 0
      else (listFind2 (y :: rest) a b).map (· + 1)
  | _, _, _ => none

/-- Lines 637-642 of `process_esp32_stream`: one iteration of the MJPEG
demux on an arriving chunk.  Append the chunk to the accumulator, look for
the first `0xFFD8` (at `a`) and the first `0xFFD9` (at `b`); when both are
found, emit `bytes_data[a:b+2]` as one encoded image and keep
`bytes_data[b+2:]`, otherwise keep the grown buffer and emit nothing.
At most one image is extracted per chunk. -/
def demuxStep (buf chunk : List Nat) : List Nat × Option (List Nat) :=
  match listFind2 (buf ++ chunk) 0xFF 0xD8,
      listFind2 (buf ++ chunk) 0xFF 0xD9 with
  | some a, some b =>
      ((buf ++ chunk).drop (b + 2),
        some (((buf ++ chunk).take (b + 2)).drop a))
  | _, _ => (buf ++ chunk, none)

/-- The demux loop run over a whole chunk sequence, starting from a given
accumulator: final accumulator and the emitted encoded images in order. -/
def demuxRun : List Nat → List (List Nat) → List Nat × List (List Nat)
  | buf, [] => (buf, [])
  | buf, c :: cs =>
      match demuxStep buf c with
      | (buf2, some j) =>
          let r := demuxRun buf2 cs
          (r.1, j :: r.2)
      | (buf2, none) =>
          let r := demuxRun buf2 cs
          (r.1, r.2)

/-- Images emitted by the demux loop (line 633 initialises the accumulator
to the empty byte string). -/
def demux (chunks : List (List Nat)) : List (List Nat) :=
  (demuxRun [] chunks).2

/-- Final accumulator contents of the demux loop. -/
def demuxBuf (chunks : List (List Nat)) : List Nat :=
  (demuxRun [] chunks).1

/-- A byte sequence standing for one well-formed JPEG in the sense the demux
scanner relies on: start-of-image marker, payload, end-of-image marker. -/
def mkJpeg (payload : List Nat) : List Nat :=
  0xFF :: 0xD8 :: (payload ++ [0xFF, 0xD9])

/-- A payload is clean when it contains no start- or end-of-image marker
(`0xFFD8` / `0xFFD9`) — the property of real JPEG entropy-coded data that
the scanner of lines 638-639 depends on. -/
def cleanPayload : List Nat → Bool
  | x :: y :: rest =>
      ((x != 0xFF) || (y != 0xD8 && y != 0xD9)) && cleanPayload (y :: rest)
  | _ => true

/-- Lines 88-92: the ESP32 connection settings and the display availability
flag (`self.display_available`, initially `True`). -/
structure EspState where
  esp32_ip : String
  esp32_stream_port : String
  esp32_ws_port : String
  display_method : String
  display_available : Bool
deriving DecidableEq

/-- Observable outcome of one `send_to_esp32_display` call.  `skipped` is
the early return of line 957-959 (no network attempt); the `Exn` variants
are caught transport exceptions. -/
inductive SendResult
  | skipped
  | httpOk
  | httpError (code : Nat)
  | httpExn
  | wsSent
  | wsExn
deriving DecidableEq

/-- Lines 956-982, `send_to_esp32_display(message)`.  The network is
external: `httpResp` is the outcome of `requests.post` (`some code` a
response with that status, `none` a raised exception) and `wsConnOk`
whether the WebSocket connect/send/close succeeds.  An HTTP non-200 status
is only logged (line 969) — the availability flag is *not* cleared there;
the flag is cleared exactly in the two exception handlers (lines 972, 982). -/
def send_to_esp32_display (s : EspState) (httpResp : Option Nat)
    (wsConnOk : Bool) : EspState × SendResult :=
  if s.display_available = false then (s, .skipped)
  else if s.display_method = "HTTP" then
    match httpResp with
    | some code =>
        if code = 200 then (s, .httpOk) else (s, .httpError code)
    | none => ({ s with display_available := false }, .httpExn)
  else
    if wsConnOk then (s, .wsSent)
    else ({ s with display_available := false }, .wsExn)

/-- Lines 984-991, `update_esp32_settings()`: copies the four entry-field
values into the connection settings and logs.  It does not touch
`display_available`. -/
def update_esp32_settings (s : EspState) (ip sport wport method : String) :
    EspState :=
  { s with esp32_ip := ip, esp32_stream_port := sport,
           esp32_ws_port := wport, display_method := method }

/-- Program counter of the stream-ingestion thread
(`process_esp32_stream`): about to test `self.is_running` at the chunk
boundary (line 635), about to run the body of the current iteration
(lines 637-659), or exited the loop. -/
inductive StreamPc
  | atCheck
  | atBody
  | exited
deriving DecidableEq

/-- Joint state of the ingestion thread and the UI thread for the stop
race.  `pending` carries, for each remaining loop iteration, the externally
determined classification result and wall-clock time `(gesture, now)` of
that iteration (frame demux, MediaPipe and `time.time()` are external).
`stopped` and `dispatchesAfterStop` are observer fields: whether
`stop_stream` (lines 624-627) has returned, and how many gesture actions
were dispatched (line 657) after it returned. -/
structure PipelineState where
  is_running : Bool
  pc : StreamPc
  gst : GestureState
  pending : List (String × ℚ)
  stopped : Bool
  dispatchesAfterStop : Nat
deriving DecidableEq

/-- One atomic step of the ingestion thread: at the chunk boundary it reads
`self.is_running` and exits or enters the body (lines 634-636); in the body
it runs the cooldown-gated dispatch of lines 653-657 for the iteration's
classification result and returns to the boundary. -/
def streamStep (cooldown : ℚ) (s : PipelineState) : PipelineState :=
  match s.pc with
  | .exited => s
  | .atCheck =>
      match s.pending with
      | [] => { s with pc := .exited }
      | _ :: _ =>
          if s.is_running then { s with pc := .atBody }
          else { s with pc := .exited }
  | .atBody =>
      match s.pending with
      | [] => { s with pc := .exited }
      | (g, now) :: rest =>
          let r := gestureStep cooldown s.gst g now
          { s with pc := .atCheck, pending := rest, gst := r.1,
                   dispatchesAfterStop := s.dispatchesAfterStop +
                     (if r.2 && s.stopped then 1 else 0) }

/-- One atomic step of the UI thread: the first such step is the
`stop_stream` call (line 625 clears `self.is_running` and the call returns
immediately); later steps do nothing. -/
def uiStopStep (s : PipelineState) : PipelineState :=
  if s.stopped then s else { s with is_running := false, stopped := true }

/-- Interleaved execution: each schedule entry says which thread takes the
next atomic step (`true` = ingestion thread, `false` = UI thread). -/
def runPipeline (cooldown : ℚ) (s : PipelineState) : List Bool → PipelineState
  | [] => s
  | t :: sched =>
      runPipeline cooldown (if t then streamStep cooldown s else uiStopStep s) sched

/-- State of the pipeline right after `start_stream` has launched the
ingestion thread (line 616 sets `is_running = True`): thread at the first
chunk boundary, stop not yet called. -/
def initPipeline (gst : GestureState) (pending : List (String × ℚ)) :
    PipelineState :=
  { is_running := true, pc := .atCheck, gst := gst, pending := pending,
    stopped := false, dispatchesAfterStop := 0 }

/-- Invariant of the stop race: before `stop_stream` returns nothing is
counted; after it returns the running flag is down and the counted
dispatches plus the at-most-one iteration still in flight stay within
one. -/
def PipelineInv (s : PipelineState) : Prop :=
  (s.stopped = false → s.dispatchesAfterStop = 0) ∧
  (s.stopped = true → s.is_running = false ∧
    s.dispatchesAfterStop + (if s.pc = .atBody then 1 else 0) ≤ 1)

/-! ### Association-list helper lemmas -/

theorem lookup_append_some (k v : String) :
    ∀ l1 l2 : List (String × String), List.lookup k l1 = some v →
      List.lookup k (l1 ++ l2) = some v := by
  intro l1 l2 h
  induction l1 with
  | nil => simp [List.lookup] at h
  | cons kv rest ih =>
    obtain ⟨k1, v1⟩ := kv
    rw [List.cons_append]
    rw [List.lookup_cons] at h ⊢
    cases hbeq : k == k1 with
    | true => simp only [hbeq] at h ⊢; exact h
    | false => simp only [hbeq] at h ⊢; exact ih h

theorem lookup_append_none (k : String) :
    ∀ l1 l2 : List (String × String), List.lookup k l1 = none →
      List.lookup k (l1 ++ l2) = List.lookup k l2 := by
  intro l1 l2 h
  induction l1 with
  | nil => simp
  | cons kv rest ih =>
    obtain ⟨k1, v1⟩ := kv
    rw [List.lookup_cons] at h
    rw [List.cons_append, List.lookup_cons]
    cases hbeq : k == k1 with
    | true => simp only [hbeq] at h; cases h
    | false => simp only [hbeq] at h ⊢; exact ih h

theorem lookup_filter_of_mem (p : String × String → Bool) :
    ∀ (l : List (String × String)) (k v : String), (k, v) ∈ l →
      (l.map Prod.fst).Nodup → p (k, v) = true →
      List.lookup k (l.filter p) = some v := by
  intro l
  induction l with
  | nil => intro k v hm _ _; simp at hm
  | cons kv rest ih =>
    intro k v hm hnd hp
    obtain ⟨k1, v1⟩ := kv
    rw [List.map_cons] at hnd
    have hnd2 := List.nodup_cons.mp hnd
    rcases List.mem_cons.mp hm with heq | hmem
    · obtain ⟨rfl, rfl⟩ : k1 = k ∧ v1 = v := by
        simpa [Prod.ext_iff, eq_comm] using heq
      rw [List.filter_cons, if_pos hp, List.lookup_cons]
      simp
    · have hkmem : k ∈ List.map Prod.fst rest :=
        List.mem_map.mpr ⟨(k, v), hmem, rfl⟩
      have hk1 : k ≠ k1 := fun hkk => hnd2.1 (hkk ▸ hkmem)
      rw [List.filter_cons]
      by_cases hp1 : p (k1, v1) = true
      · rw [if_pos hp1, List.lookup_cons]
        simp only [beq_false_of_ne hk1]
        exact ih k v hmem hnd2.2 hp
      · rw [if_neg hp1]
        exact ih k v hmem hnd2.2 hp

/-! ### Claim C4 — `ActionRegistry.set` validation -/

/-- Claim C4 counterexample: the claim says `set(gesture, action)` with an
action outside the fixed action set fails with `InvalidMapping` and leaves
the map unchanged.  In the code, `update_gesture_mapping` (lines 1048-1051)
performs no validation: called on the default map with the out-of-set
action `"explode"`, it changes the map and stores the invalid action. -/
theorem update_mapping_validation_counterexample :
    "explode" ∉ AVAILABLE_ACTIONS ∧
    update_gesture_mapping DEFAULT_GESTURE_ACTIONS "fist" "explode" ≠
      DEFAULT_GESTURE_ACTIONS ∧
    List.lookup "fist"
        (update_gesture_mapping DEFAULT_GESTURE_ACTIONS "fist" "explode") =
      some "explode" :=
  ⟨by decide, by decide, by decide⟩

/-- Claim C4, amended: `update_gesture_mapping` validates nothing — for
every map and every pair of strings, gesture outside the gesture set or
action outside the action set included, the call succeeds and afterwards
the map sends the gesture to the new action. -/
theorem update_gesture_mapping_unconditional
    (m : List (String × String)) (g a : String) :
    List.lookup g (update_gesture_mapping m g a) = some a := by
  unfold update_gesture_mapping
  induction m with
  | nil => simp [dictSet, List.lookup_cons]
  | cons kv rest ih =>
    obtain ⟨k1, v1⟩ := kv
    by_cases h : k1 = g
    · subst h
      simp [dictSet, List.lookup_cons]
    · rw [dictSet, if_neg h, List.lookup_cons]
      simp only [beq_false_of_ne (fun hgk => h hgk.symm)]
      exact ih

/-! ### Claim C7 — config merge over defaults -/

/-- Claim C7 counterexample: the claim says persisted keys outside the
fixed gesture set are silently ignored and do not appear in the result.
In the code (lines 166-177) the parsed dict is kept as is and only missing
default keys are added, so the unknown persisted key `"wave"` survives the
merge with its persisted value. -/
theorem merge_retains_unknown_key :
    "wave" ∉ DEFAULT_GESTURE_ACTIONS.map Prod.fst ∧
    List.lookup "wave" (mergeDefaults [("wave", "translate")]) =
      some "translate" :=
  ⟨by decide, by decide⟩

/-- Claim C7, amended: `load_gesture_config` merges the persisted pairs
over the compiled-in defaults so that (a) every default gesture key absent
from the persisted file ends up mapped to its default action, and
(b) persisted keys — including keys outside the fixed gesture set — are
retained with their persisted values; unknown keys are not removed. -/
theorem mergeDefaults_spec (cfg : List (String × String)) :
    (∀ k v, List.lookup k cfg = some v →
        List.lookup k (mergeDefaults cfg) = some v) ∧
    (∀ kv, kv ∈ DEFAULT_GESTURE_ACTIONS → List.lookup kv.1 cfg = none →
        List.lookup kv.1 (mergeDefaults cfg) = some kv.2) := by
  constructor
  · intro k v h
    exact lookup_append_some k v cfg _ h
  · intro kv hmem h
    obtain ⟨k, v⟩ := kv
    unfold mergeDefaults
    rw [lookup_append_none k cfg _ h]
    apply lookup_filter_of_mem _ _ k v hmem
    · decide
    · simp [h]

/-- Claim C7 witness: a missing default key (`"fist"`) is filled in from
the defaults, and a persisted unknown key (`"custom"`) is retained. -/
theorem mergeDefaults_spec_witness :
    (List.lookup "fist" ([] : List (String × String)) = none ∧
      List.lookup "fist" (mergeDefaults []) = some "stop") ∧
    (List.lookup "custom" [("custom", "xyz")] = some "xyz" ∧
      List.lookup "custom" (mergeDefaults [("custom", "xyz")]) = some "xyz") :=
  ⟨⟨by decide, (mergeDefaults_spec []).2 ("fist", "stop") (by decide) (by decide)⟩,
   ⟨by decide, (mergeDefaults_spec [("custom", "xyz")]).1 "custom" "xyz" (by decide)⟩⟩

/-! ### Claim C1 — cooldown boundary -/

theorem gestureStep_fst_of_fired (c : ℚ) (st : GestureState) (g : String)
    (t : ℚ) (h : (gestureStep c st g t).2 = true) :
    (gestureStep c st g t).1 =
      { last_gesture_time := t, current_gesture := g } := by
  by_cases hc : g ≠ "None" ∧ t - st.last_gesture_time > c
  · rw [gestureStep, if_pos hc]
  · rw [gestureStep, if_neg hc] at h
    simp at h

/-- Claim C1 counterexample: with cooldown `c = 1` and the dispatcher state
right after a fire at `t1 = 0` (`last_gesture_time = 0`), a non-none
gesture arriving at `t2 = 1` has `t2 - t1 ≥ c`, so the claim says it fires;
the code compares strictly (`now - last_gesture_time > cooldown`, line 654)
and silently drops it. -/
theorem cooldown_boundary_counterexample :
    (1 : ℚ) - 0 ≥ 1 ∧
    (gestureStep 1 { last_gesture_time := 0, current_gesture := "fist" }
        "fist" 1).2 = false :=
  ⟨by norm_num, by rw [gestureStep, if_neg (fun h => absurd h.2 (by norm_num))]⟩

/-- Claim C1, amended: after a gesture event fires at time `t1`, a later
non-none gesture event at time `t2` fires if and only if `t2 - t1 > c`
(strictly).  In particular two consecutive fires are always more than `c`
apart, so at most one action fires in any closed window of length `c`; the
boundary event with `t2 - t1 = c` is dropped. -/
theorem cooldown_fires_iff_strict (c t1 t2 : ℚ) (st : GestureState)
    (g1 g2 : String) (hg2 : g2 ≠ "None")
    (h1 : (gestureStep c st g1 t1).2 = true) :
    ((gestureStep c (gestureStep c st g1 t1).1 g2 t2).2 = true ↔
      t2 - t1 > c) := by
  rw [gestureStep_fst_of_fired c st g1 t1 h1]
  constructor
  · intro h
    by_contra hgt
    rw [gestureStep, if_neg (fun hh => absurd hh.2 hgt)] at h
    simp at h
  · intro hgt
    rw [gestureStep, if_pos ⟨hg2, hgt⟩]

/-- Claim C1 witness: with `c = 1`, a fire at `t1 = 0` from an idle state,
then a second event at `t2 = 3`, which fires since `3 - 0 > 1`. -/
theorem cooldown_fires_iff_strict_witness :
    ("fist" ≠ "None") ∧
    (gestureStep 1 { last_gesture_time := -2, current_gesture := "None" }
        "fist" 0).2 = true ∧
    ((gestureStep 1
        (gestureStep 1 { last_gesture_time := -2, current_gesture := "None" }
          "fist" 0).1 "fist" 3).2 = true ↔ (3 : ℚ) - 0 > 1) :=
  ⟨by decide,
   by rw [gestureStep, if_pos ⟨by decide, by norm_num⟩],
   cooldown_fires_iff_strict 1 0 3
     { last_gesture_time := -2, current_gesture := "None" } "fist" "fist"
     (by decide) (by rw [gestureStep, if_pos ⟨by decide, by norm_num⟩])⟩

/-! ### Claim C2 — display circuit breaker -/

/-- Claim C2 counterexample: with the HTTP transport selected and the
display available, a response with the non-success status 500 leaves
`display_available` true — the code only logs the error (line 969) — while
the claim requires any non-success status to clear the availability flag. -/
theorem http_error_keeps_display_available :
    send_to_esp32_display
        { esp32_ip := "192.168.1.42", esp32_stream_port := "80",
          esp32_ws_port := "81", display_method := "HTTP",
          display_available := true } (some 500) true =
      ({ esp32_ip := "192.168.1.42", esp32_stream_port := "80",
         esp32_ws_port := "81", display_method := "HTTP",
         display_available := true }, .httpError 500) := by
  decide

/-- Claim C2, amended: a transport-level *exception* (HTTP request failure
or WebSocket connect/send failure) clears the availability flag; an HTTP
response with a non-success status code is only logged and leaves the flag
(and the whole state) unchanged; while the flag is false every send returns
immediately without a network attempt and without changing state; and no
operation restores the flag — `update_esp32_settings` updates the
connection settings but leaves `display_available` exactly as it was, so
once cleared the flag stays false. -/
theorem display_circuit_breaker (s : EspState) :
    (∀ w, s.display_available = true → s.display_method = "HTTP" →
        send_to_esp32_display s none w =
          ({ s with display_available := false }, .httpExn)) ∧
    (∀ h, s.display_available = true → s.display_method ≠ "HTTP" →
        send_to_esp32_display s h false =
          ({ s with display_available := false }, .wsExn)) ∧
    (∀ h w, s.display_available = false →
        send_to_esp32_display s h w = (s, .skipped)) ∧
    (∀ c w, s.display_available = true → s.display_method = "HTTP" →
        c ≠ 200 → send_to_esp32_display s (some c) w = (s, .httpError c)) ∧
    (∀ ip sp wp m,
        (update_esp32_settings s ip sp wp m).display_available =
          s.display_available) := by
  refine ⟨?_, ?_, ?_, ?_, ?_⟩
  · intro w hav hm
    simp [send_to_esp32_display, hav, hm]
  · intro h hav hm
    simp [send_to_esp32_display, hav, hm]
  · intro h w hav
    simp [send_to_esp32_display, hav]
  · intro c w hav hm hc
    simp [send_to_esp32_display, hav, hm, hc]
  · intro ip sp wp m
    rfl

/-- Claim C2 witness: concrete sends exercising every branch — HTTP
exception clears the flag, WebSocket failure clears the flag, an
unavailable channel short-circuits, a 404 response leaves the state
unchanged, and a settings update preserves a cleared flag. -/
theorem display_circuit_breaker_witness :
    (send_to_esp32_display
        ⟨"192.168.1.42", "80", "81", "HTTP", true⟩ none true =
      (⟨"192.168.1.42", "80", "81", "HTTP", false⟩, .httpExn)) ∧
    (send_to_esp32_display
        ⟨"192.168.1.42", "80", "81", "WebSocket", true⟩ (some 200) false =
      (⟨"192.168.1.42", "80", "81", "WebSocket", false⟩, .wsExn)) ∧
    (send_to_esp32_display
        ⟨"192.168.1.42", "80", "81", "HTTP", false⟩ (some 200) true =
      (⟨"192.168.1.42", "80", "81", "HTTP", false⟩, .skipped)) ∧
    (send_to_esp32_display
        ⟨"192.168.1.42", "80", "81", "HTTP", true⟩ (some 404) true =
      (⟨"192.168.1.42", "80", "81", "HTTP", true⟩, .httpError 404)) ∧
    (update_esp32_settings ⟨"a", "b", "c", "HTTP", false⟩
        "d" "e" "f" "WebSocket").display_available = false :=
  ⟨(display_circuit_breaker _).1 true rfl rfl,
   (display_circuit_breaker _).2.1 (some 200) rfl (by decide),
   (display_circuit_breaker _).2.2.1 (some 200) true rfl,
   (display_circuit_breaker _).2.2.2.1 404 true rfl rfl (by decide),
   (display_circuit_breaker _).2.2.2.2 "d" "e" "f" "WebSocket"⟩

/-! ### Demux helper lemmas -/

theorem listFind2_of_not_mem (a b : Nat) :
    ∀ l : List Nat, a ∉ l → listFind2 l a b = none := by
  intro l
  induction l with
  | nil => intro _; rfl
  | cons x xs ih =>
    intro h
    cases xs with
    | nil => rfl
    | cons y rest =>
      have hax : ¬(x = a ∧ y = b) := by
        intro hc
        exact h (List.mem_cons.mpr (Or.inl hc.1.symm))
      rw [listFind2, if_neg hax,
        ih (fun hm => h (List.mem_cons.mpr (Or.inr hm)))]
      rfl

theorem listFind2_payload_eoi :
    ∀ p : List Nat, cleanPayload p = true →
      listFind2 (p ++ [0xFF, 0xD9]) 0xFF 0xD9 = some p.length := by
  intro p
  induction p with
  | nil =>
    intro _
    rw [List.nil_append, listFind2, if_pos ⟨rfl, rfl⟩]
    rfl
  | cons a rest ih =>
    intro h
    cases rest with
    | nil =>
      rw [List.cons_append, List.nil_append, listFind2,
        if_neg (by norm_num), listFind2, if_pos ⟨rfl, rfl⟩]
      rfl
    | cons b rest2 =>
      have hsp : ((a != 0xFF) || (b != 0xD8 && b != 0xD9)) = true ∧
          cleanPayload (b :: rest2) = true := by
        rw [cleanPayload] at h
        exact Bool.and_eq_true_iff.mp h
      have hcond : ¬(a = 0xFF ∧ b = 0xD9) := by
        intro hc
        rcases Bool.or_eq_true_iff.mp hsp.1 with hne | hbb
        · exact absurd hc.1 (by simpa using hne)
        · exact absurd hc.2 (by simpa using (Bool.and_eq_true_iff.mp hbb).2)
      rw [List.cons_append, List.cons_append, listFind2, if_neg hcond]
      rw [← List.cons_append]
      rw [ih hsp.2]
      rfl

theorem listFind2_mkJpeg_soi (p : List Nat) :
    listFind2 (mkJpeg p) 0xFF 0xD8 = some 0 := by
  rw [mkJpeg, listFind2, if_pos ⟨rfl, rfl⟩]

theorem listFind2_mkJpeg_eoi (p : List Nat) (hp : cleanPayload p = true) :
    listFind2 (mkJpeg p) 0xFF 0xD9 = some (p.length + 2) := by
  have h1 := listFind2_payload_eoi p hp
  cases htl : p ++ [0xFF, 0xD9] with
  | nil => exact absurd htl (by simp)
  | cons y tl =>
    rw [mkJpeg, listFind2, if_neg (by norm_num), htl, listFind2,
      if_neg (by norm_num), ← htl, h1]
    rfl

theorem demuxStep_empty_jpeg (p : List Nat) (hp : cleanPayload p = true) :
    demuxStep [] (mkJpeg p) = ([], some (mkJpeg p)) := by
  have hsoi := listFind2_mkJpeg_soi p
  have heoi := listFind2_mkJpeg_eoi p hp
  have hlen : (mkJpeg p).length = p.length + 2 + 2 := by
    simp [mkJpeg]
  unfold demuxStep
  rw [List.nil_append]
  simp only [hsoi, heoi]
  rw [List.drop_eq_nil_of_le (by omega), List.take_of_length_le (by omega),
    List.drop_zero]

theorem demuxRun_jpegs :
    ∀ ps : List (List Nat), (∀ p ∈ ps, cleanPayload p = true) →
      demuxRun [] (ps.map mkJpeg) = ([], ps.map mkJpeg) := by
  intro ps
  induction ps with
  | nil => intro _; rfl
  | cons p rest ih =>
    intro h
    rw [List.map_cons, demuxRun]
    simp only [demuxStep_empty_jpeg p (h p (List.mem_cons_self p rest))]
    rw [ih (fun q hq => h q (List.mem_cons.mpr (Or.inr hq)))]

theorem demuxRun_length_le (chunks : List (List Nat)) :
    ∀ buf : List Nat, (demuxRun buf chunks).2.length ≤ chunks.length := by
  induction chunks with
  | nil => intro buf; simp [demuxRun]
  | cons c cs ih =>
    intro buf
    rw [demuxRun]
    cases hds : demuxStep buf c with
    | mk buf2 em =>
      cases em with
      | some j =>
        simp only [hds, List.length_cons]
        simpa using Nat.succ_le_succ (ih buf2)
      | none =>
        simp only [hds]
        exact le_trans (ih buf2) (Nat.le_succ _)

/-! ### Claim C5 — one frame per demuxed JPEG -/

/-- Claim C5 counterexample: the byte stream made of `N = 2` valid JPEGs
delivered as a single chunk.  The loop extracts at most one image per
received chunk (lines 638-642 run once per chunk), so only one frame is
emitted — not the two the claim requires. -/
theorem demux_two_jpegs_one_chunk :
    cleanPayload [] = true ∧
    mkJpeg [] ++ mkJpeg [] =
      [0xFF, 0xD8, 0xFF, 0xD9, 0xFF, 0xD8, 0xFF, 0xD9] ∧
    demux [mkJpeg [] ++ mkJpeg []] = [mkJpeg []] ∧
    (demux [mkJpeg [] ++ mkJpeg []]).length = 1 := by
  refine ⟨rfl, rfl, ?_, ?_⟩ <;> decide

/-- Claim C5, amended: the demux loop emits at most one frame per received
chunk; when the chunk boundaries are such that each chunk is exactly one
valid JPEG (marker-free payload between the `0xFFD8`/`0xFFD9` markers),
the loop emits exactly the `N` images, byte-identical and in original
order.  A chunk completing several images leaves the surplus in the
buffer, to be emitted only if further chunks arrive. -/
theorem demux_exact_and_at_most_one :
    (∀ ps : List (List Nat), (∀ p ∈ ps, cleanPayload p = true) →
        demux (ps.map mkJpeg) = ps.map mkJpeg) ∧
    (∀ chunks : List (List Nat), (demux chunks).length ≤ chunks.length) := by
  constructor
  · intro ps h
    unfold demux
    rw [demuxRun_jpegs ps h]
  · intro chunks
    unfold demux
    exact demuxRun_length_le chunks []

/-- Claim C5 witness: two one-JPEG chunks demux to exactly those two
images in order. -/
theorem demux_exact_and_at_most_one_witness :
    (∀ p ∈ ([[], [1, 2]] : List (List Nat)), cleanPayload p = true) ∧
    demux (([[], [1, 2]] : List (List Nat)).map mkJpeg) =
      ([[], [1, 2]] : List (List Nat)).map mkJpeg :=
  ⟨by decide, demux_exact_and_at_most_one.1 [[], [1, 2]] (by decide)⟩

/-! ### Claim C8 — no maximum buffer size -/

theorem buffer_no_cap_aux (n : Nat) :
    ∀ buf : List Nat, 0xFF ∉ buf →
      demuxRun buf (List.replicate n [0]) = (buf ++ List.replicate n 0, []) := by
  induction n with
  | zero => intro buf _; simp [demuxRun]
  | succ n ih =>
    intro buf h
    have hmem : (0xFF : Nat) ∉ buf ++ [0] := by
      simp [h]
    have hfind : listFind2 (buf ++ [0]) 0xFF 0xD8 = none :=
      listFind2_of_not_mem _ _ _ hmem
    have hstep : demuxStep buf [0] = (buf ++ [0], none) := by
      unfold demuxStep
      simp only [hfind]
    rw [List.replicate_succ, demuxRun]
    simp only [hstep]
    rw [ih (buf ++ [0]) hmem]
    simp [List.replicate_succ]

/-- Claim C8 counterexample (negation of the claim): there is no maximum
buffer size `M` bounding the accumulator by `M` plus one chunk — for every
candidate `M`, a stream of `M + 2049` marker-free one-byte chunks (each
well below the `chunk_size=2048` read granularity of line 634) leaves
`M + 2049` bytes in the accumulator, and no framing-error/reset path
exists in the loop. -/
theorem no_buffer_cap :
    ¬ ∃ M : Nat, ∀ chunks : List (List Nat),
        (∀ c ∈ chunks, c.length ≤ 2048) →
        (demuxBuf chunks).length ≤ M + 2048 := by
  rintro ⟨M, hM⟩
  have h1 := hM (List.replicate (M + 2049) [0])
    (fun c hc => by rw [List.eq_of_mem_replicate hc]; decide)
  rw [demuxBuf, buffer_no_cap_aux (M + 2049) [] (by simp)] at h1
  simp at h1

/-- Claim C8, amended: the accumulator of the demux loop is uncapped — on a
marker-free stream it retains every received byte, growing without bound
(`n` one-byte chunks leave an `n`-byte buffer for every `n`), no frame is
ever emitted, and no framing error or buffer reset occurs. -/
theorem buffer_grows_unbounded (n : Nat) :
    demuxRun [] (List.replicate n [0]) = (List.replicate n 0, []) := by
  simpa using buffer_no_cap_aux n [] (by simp)

/-! ### Claim C3 — dispatch after stop -/

theorem streamStep_inv (c : ℚ) (s : PipelineState) (h : PipelineInv s) :
    PipelineInv (streamStep c s) := by
  obtain ⟨runn, pc, gst, pending, stopped, d⟩ := s
  obtain ⟨h1, h2⟩ := h
  simp only [PipelineInv] at h1 h2 ⊢
  cases pc <;> cases pending <;> cases stopped <;> cases runn <;>
    simp_all [streamStep] <;> split_ifs <;> simp_all

theorem uiStopStep_inv (s : PipelineState) (h : PipelineInv s) :
    PipelineInv (uiStopStep s) := by
  obtain ⟨runn, pc, gst, pending, stopped, d⟩ := s
  obtain ⟨h1, h2⟩ := h
  simp only [PipelineInv] at h1 h2 ⊢
  cases stopped <;> simp_all [uiStopStep] <;> split_ifs <;> simp_all

theorem runPipeline_inv (c : ℚ) (sched : List Bool) :
    ∀ s : PipelineState, PipelineInv s → PipelineInv (runPipeline c s sched) := by
  induction sched with
  | nil => intro s h; exact h
  | cons t rest ih =>
    intro s h
    rw [runPipeline]
    cases t with
    | true => exact ih _ (by simpa using streamStep_inv c s h)
    | false => exact ih _ (by simpa using uiStopStep_inv s h)

/-- Claim C3 counterexample: an interleaving in which a gesture action is
dispatched after `stop_stream` has returned.  The ingestion thread passes
its `is_running` check, the UI thread then runs `stop_stream` to
completion (line 625 only clears the flag), and the in-flight loop body
still dispatches its action (line 657): one dispatch is counted after stop
returned, while the claim requires zero. -/
theorem dispatch_after_stop_possible :
    (runPipeline 1
        (initPipeline { last_gesture_time := 0, current_gesture := "None" }
          [("fist", 10)]) [true, false, true]).dispatchesAfterStop = 1 := by
  norm_num [runPipeline, streamStep, uiStopStep, initPipeline, gestureStep]
  rw [if_neg (by decide)]

/-- Claim C3, amended: after `stop_stream` returns, at most one further
gesture action can be dispatched — the one belonging to the single loop
iteration already past its `is_running` check; every later iteration sees
the cleared flag at the chunk boundary and exits, so for every
interleaving of the two threads and every stream content the number of
dispatches after stop returns is at most one (not zero, as claimed). -/
theorem dispatch_after_stop_at_most_one (c : ℚ) (gst : GestureState)
    (pending : List (String × ℚ)) (sched : List Bool) :
    (runPipeline c (initPipeline gst pending) sched).dispatchesAfterStop ≤ 1 := by
  have hinv : PipelineInv (initPipeline gst pending) := by
    constructor
    · intro _; rfl
    · intro hst; simp [initPipeline] at hst
  obtain ⟨hf1, hf2⟩ := runPipeline_inv c sched _ hinv
  cases hstop : (runPipeline c (initPipeline gst pending) sched).stopped with
  | false => rw [hf1 hstop]; omega
  | true =>
    have h3 := (hf2 hstop).2
    split_ifs at h3 <;> omega

/-! ### Claim C6 — short poses -/

/-- Claim C6 counterexample: the claim says a pose with fewer landmarks
than expected classifies as gesture none without failing.  The code
(lines 676-678) indexes `landmarks[4]` … `landmarks[20]` unconditionally,
so the empty pose raises an `IndexError` (embedded as `none`) instead of
returning the gesture value `"None"`. -/
theorem detect_gesture_empty_raises :
    detect_gesture ([] : List Landmark) = none ∧
    detect_gesture ([] : List Landmark) ≠ some "None" :=
  ⟨rfl, fun h => Option.noConfusion h⟩

/-- Claim C6, amended: for every pose with fewer than the expected 21
landmarks, `detect_gesture` raises an `IndexError` (the indexing of
landmark 20 on line 676 is out of range) rather than returning the gesture
value `"None"`. -/
theorem detect_gesture_short_pose_fails (lm : List Landmark)
    (h : lm.length < 21) : detect_gesture lm = none := by
  have h20 : lm[20]? = none := List.getElem?_eq_none (by omega)
  have hpf : poseFlags lm = none := by
    unfold poseFlags
    split
    · simp_all
    · rfl
  unfold detect_gesture
  rw [hpf]
  rfl

/-- Claim C6 witness: the empty pose has fewer than 21 landmarks and makes
the classifier raise. -/
theorem detect_gesture_short_pose_fails_witness :
    ([] : List Landmark).length < 21 ∧
      detect_gesture ([] : List Landmark) = none :=
  ⟨by decide, detect_gesture_short_pose_fails [] (by decide)⟩

/-! ### Claim C9 — ambiguous poses -/

theorem poseFlags_poseThumbPinch : poseFlags poseThumbPinch = some flagsP := by
  simp only [poseFlags, poseThumbPinch, lm0]
  norm_num [flagsP]

/-- Claim C9 counterexample: `poseThumbPinch` satisfies the decision
conditions of two gestures (`thumbs_up` and `pinch`), so the claim says
the ambiguity resolves to gesture none; the code returns the first
matching label of its fixed branch order, `"thumbs_up"`. -/
theorem multi_match_returns_first :
    2 ≤ countMatchesPose poseThumbPinch ∧
    detect_gesture poseThumbPinch = some "thumbs_up" ∧
    detect_gesture poseThumbPinch ≠ some "None" := by
  have hpf := poseFlags_poseThumbPinch
  have hdet : detect_gesture poseThumbPinch = some "thumbs_up" := by
    unfold detect_gesture
    rw [hpf]
    simp [classifyCore, thumbsUpCond, flagsP]
  refine ⟨?_, hdet, by rw [hdet]; simp⟩
  have c1 : thumbsUpCond flagsP = true := by simp [thumbsUpCond, flagsP]
  have c2 : peaceCond flagsP = false := by simp [peaceCond, flagsP]
  have c3 : fistCond flagsP = false := by simp [fistCond, flagsP]
  have c4 : openPalmCond flagsP = false := by
    simp [openPalmCond, flagsP, fingers_up]
  have c5 : pointingCond flagsP = false := by simp [pointingCond, flagsP]
  have c6 : okSignCond flagsP = false := by simp [okSignCond, flagsP]
  have c7 : pinchCond flagsP = true := by norm_num [pinchCond, flagsP]
  have hco : countMatches flagsP = 2 := by
    simp [countMatches, c1, c2, c3, c4, c5, c6, c7]
  unfold countMatchesPose
  rw [hpf]
  show 2 ≤ countMatches flagsP
  rw [hco]

/-- Claim C9, amended: for every well-formed pose (at least 21 landmarks)
`detect_gesture` returns exactly one gesture value, drawn from the fixed
set, and never raises; a pose satisfying the conditions of several
gestures resolves to the first matching label in the code's fixed branch
order (`thumbs_up` before everything else), not to gesture none. -/
theorem detect_gesture_total_first_match (lm : List Landmark)
    (h : 21 ≤ lm.length) :
    ∃ f, poseFlags lm = some f ∧ detect_gesture lm = some (classifyCore f) ∧
      classifyCore f ∈ ["thumbs_up", "peace", "fist", "open_palm",
        "pointing", "ok_sign", "pinch", "None"] ∧
      (thumbsUpCond f = true → classifyCore f = "thumbs_up") := by
  have h4 : lm[4]? = some lm[4] := List.getElem?_eq_getElem (by omega)
  have h8 : lm[8]? = some lm[8] := List.getElem?_eq_getElem (by omega)
  have h12 : lm[12]? = some lm[12] := List.getElem?_eq_getElem (by omega)
  have h16 : lm[16]? = some lm[16] := List.getElem?_eq_getElem (by omega)
  have h20 : lm[20]? = some lm[20] := List.getElem?_eq_getElem (by omega)
  have h5 : lm[5]? = some lm[5] := List.getElem?_eq_getElem (by omega)
  have h9 : lm[9]? = some lm[9] := List.getElem?_eq_getElem (by omega)
  have h13 : lm[13]? = some lm[13] := List.getElem?_eq_getElem (by omega)
  have h17 : lm[17]? = some lm[17] := List.getElem?_eq_getElem (by omega)
  have h3 : lm[3]? = some lm[3] := List.getElem?_eq_getElem (by omega)
  obtain ⟨f, hf⟩ : ∃ f, poseFlags lm = some f := by
    unfold poseFlags
    rw [h4, h8, h12, h16, h20, h5, h9, h13, h17, h3]
    exact ⟨_, rfl⟩
  refine ⟨f, hf, ?_, ?_, ?_⟩
  · unfold detect_gesture
    rw [hf]
    rfl
  · unfold classifyCore
    split_ifs <;> simp
  · intro ht
    unfold classifyCore
    rw [if_pos ht]

/-- Claim C9 witness: the 21-landmark pose `poseThumbPinch` classifies to
exactly one gesture of the fixed set. -/
theorem detect_gesture_total_first_match_witness :
    21 ≤ poseThumbPinch.length ∧
    (∃ f, poseFlags poseThumbPinch = some f ∧
      detect_gesture poseThumbPinch = some (classifyCore f) ∧
      classifyCore f ∈ ["thumbs_up", "peace", "fist", "open_palm",
        "pointing", "ok_sign", "pinch", "None"] ∧
      (thumbsUpCond f = true → classifyCore f = "thumbs_up")) :=
  ⟨by decide, detect_gesture_total_first_match poseThumbPinch (by decide)⟩

/-! ### Claim C10 — config load never raises -/

/-- Claim C10: for every state of the external config file in which reading
or parsing fails — absent, unreadable, or malformed JSON — the caught
exception path of `load_gesture_config` (lines 166-177) yields exactly the
compiled-in default mapping, and no exception escapes (the embedding is a
total function into plain lists, mirroring the source's catch-all
`except`). -/
theorem load_gesture_config_defaults_on_failure :
    load_gesture_config .absent = DEFAULT_GESTURE_ACTIONS ∧
    load_gesture_config .unreadable = DEFAULT_GESTURE_ACTIONS ∧
    load_gesture_config .malformed = DEFAULT_GESTURE_ACTIONS :=
  ⟨rfl, rfl, rfl⟩

end GestureControl
